import Mathlib

/-!
Shallow embedding of the loan-application workflow and verification engine
(`app/services/workflow.py`, `app/services/client_verification.py`,
`app/utils/enums.py`, `app/workers/tasks.py`, `app/models/*`), together with
theorems settling the frozen claims about the natural-language specification.

The record store is modelled as in-memory lists in insertion order; an ORM
`.first()` query is `List.find?`, and mutating the object returned by a query
is `setFirst` (update the first record matching the query predicate).
Timestamps are natural numbers.
-/

namespace LoanApp

/-- `VerificationStatus` from `app/models/client_verification.py`. -/
inductive VerificationStatus where
  | pending
  | verified
  | expired
  | failed
deriving DecidableEq, Repr

/-- `VerificationType` from `app/models/client_verification.py`. -/
inductive VerificationType where
  | email
  | sms
  | identityDocument
deriving DecidableEq, Repr

/-- `VerificationCategory` from `app/models/client_verification.py`. -/
inductive VerificationCategory where
  | contact
  | identity
deriving DecidableEq, Repr

/-- One row of the `verifications` table (`Verification` model). -/
structure Verification where
  id : Nat
  applicationId : Nat
  category : VerificationCategory
  verificationType : VerificationType
  verificationCode : Option String
  status : VerificationStatus
  attempts : Nat
  maxAttempts : Nat
  expiresAt : Nat
  verifiedAt : Option Nat
deriving DecidableEq, Repr

/-- `LoanApplicationStatus` from `app/models/loan_application.py`. -/
inductive LoanApplicationStatus where
  | submitted
  | awaitingVerification
  | verified
  | preprocessing
  | dataEnrichment
  | scoring
  | manualReview
  | approved
  | rejected
  | error
deriving DecidableEq, Repr

/-- The `.value` string of each `LoanApplicationStatus` member. -/
def statusValue : LoanApplicationStatus → String
  | .submitted => "submitted"
  | .awaitingVerification => "awaiting_verification"
  | .verified => "verified"
  | .preprocessing => "preprocessing"
  | .dataEnrichment => "data_enrichment"
  | .scoring => "scoring"
  | .manualReview => "manual_review"
  | .approved => "approved"
  | .rejected => "rejected"
  | .error => "error"

/-- One row of the `loan_applications` table, restricted to the fields the
workflow and verification services read or write. -/
structure LoanApplication where
  id : Nat
  requestId : String
  email : String
  phone : String
  status : LoanApplicationStatus
  decisionReason : Option String
  updatedAt : Option Nat
deriving DecidableEq, Repr

/-- One row of the `audit_logs` table; `eventData` holds the reason text of a
`STATUS_CHANGED_<STATE>` entry when one was given. -/
structure AuditLog where
  applicationId : Nat
  eventType : String
  eventData : Option String
deriving DecidableEq, Repr

/-- The record store: tables in insertion order plus the id sequence for
newly created verification rows. -/
structure DB where
  applications : List LoanApplication
  verifications : List Verification
  auditLogs : List AuditLog
  nextVerificationId : Nat
deriving DecidableEq, Repr

/-- Update the first list element matching `p`; this is how mutating the ORM
object returned by a `.first()` query and committing acts on the table. -/
def setFirst (p : α → Bool) (f : α → α) : List α → List α
  | [] => []
  | x :: xs => if p x then f x :: xs else x :: setFirst p f xs

/-- The `query(LoanApplication).filter(request_id == ...).first()` lookup. -/
def findApplication (db : DB) (requestId : String) : Option LoanApplication :=
  db.applications.find? (fun a => a.requestId == requestId)

/-- Query predicate of `verify_code`: the pending verification row for one
(application, channel) pair. -/
def pendingFor (applicationId : Nat) (vt : VerificationType) (v : Verification) : Bool :=
  v.applicationId == applicationId && v.verificationType == vt &&
    v.status == VerificationStatus.pending

/-- The pending-verification lookup performed by `verify_code`. -/
def findPendingVerification (db : DB) (applicationId : Nat) (vt : VerificationType) :
    Option Verification :=
  db.verifications.find? (pendingFor applicationId vt)

/-- The `{"success": ..., "message": ...}` result dict of the verification
service operations. -/
structure VerifyResult where
  success : Bool
  message : String
deriving DecidableEq, Repr

/-- `VerificationService.verify_code` (`app/services/client_verification.py`):
resolve the application, resolve the pending row for the channel, check expiry,
then attempt exhaustion, then increment `attempts` and compare the submitted
code with the stored one.  The comparison `stored == submitted` is false when
the stored code is absent, as Python `None == str` is. -/
def verifyCode (db : DB) (now : Nat) (requestId : String)
    (verificationCode : String) (vt : VerificationType) : VerifyResult × DB :=
  match findApplication db requestId with
  | none => (⟨false, "Application not found"⟩, db)
  | some application =>
    match findPendingVerification db application.id vt with
    | none => (⟨false, "Verification not found or already completed"⟩, db)
    | some verification =>
      if verification.expiresAt < now then
        (⟨false, "Verification code expired"⟩,
         { db with verifications :=
             (setFirst (pendingFor application.id vt)
               (fun v => { v with status := VerificationStatus.expired })
               db.verifications) })
      else if verification.maxAttempts ≤ verification.attempts then
        (⟨false, "Maximum attempts exceeded"⟩,
         { db with verifications :=
             (setFirst (pendingFor application.id vt)
               (fun v => { v with status := VerificationStatus.failed })
               db.verifications) })
      else if verification.verificationCode == some verificationCode then
        (⟨true, "Verification successful"⟩,
         { db with verifications :=
             (setFirst (pendingFor application.id vt)
               (fun v => { v with attempts := v.attempts + 1,
                                  status := VerificationStatus.verified,
                                  verifiedAt := some now })
               db.verifications) })
      else
        (⟨false, "Invalid verification code"⟩,
         { db with verifications :=
             (setFirst (pendingFor application.id vt)
               (fun v => { v with attempts := v.attempts + 1 })
               db.verifications) })

/-- Query predicate of `initiate_verification`: an existing row for the
channel whose status is `pending` or `expired`. -/
def activeFor (applicationId : Nat) (vt : VerificationType) (v : Verification) : Bool :=
  v.applicationId == applicationId && v.verificationType == vt &&
    (v.status == VerificationStatus.pending || v.status == VerificationStatus.expired)

/-- `VerificationService._create_verification`: a fresh pending row with a
24-hour expiry; the code is absent for the identity-document channel. -/
def createVerification (db : DB) (now : Nat) (applicationId : Nat)
    (category : VerificationCategory) (vt : VerificationType) (freshCode : String) :
    Verification × DB :=
  let verificationCode : Option String :=
    if vt ≠ VerificationType.identityDocument then some freshCode else none
  let verification : Verification :=
    { id := db.nextVerificationId
      applicationId := applicationId
      category := category
      verificationType := vt
      verificationCode := verificationCode
      status := VerificationStatus.pending
      attempts := 0
      maxAttempts := 3
      expiresAt := now + 24 * 3600
      verifiedAt := none }
  (verification,
   { db with verifications := db.verifications ++ [verification],
             nextVerificationId := db.nextVerificationId + 1 })

/-- `VerificationService.initiate_verification`: mark the first existing
pending-or-expired row for the channel as `expired`, then create a fresh
pending row (and, for contact channels, send its code — a log-only side
effect not modelled). -/
def initiateVerification (db : DB) (now : Nat) (application : LoanApplication)
    (vt : VerificationType) (category : VerificationCategory) (freshCode : String) : DB :=
  let db1 : DB :=
    match db.verifications.find? (activeFor application.id vt) with
    | some _ =>
        { db with verifications :=
            (setFirst (activeFor application.id vt)
              (fun v => { v with status := VerificationStatus.expired })
              db.verifications) }
    | none => db
  (createVerification db1 now application.id category vt freshCode).2

/-- Query predicate of `update_identity_verification_status`: the
identity-document row for the application, in any status. -/
def identityFor (applicationId : Nat) (v : Verification) : Bool :=
  v.applicationId == applicationId &&
    v.verificationType == VerificationType.identityDocument

/-- `VerificationService.update_identity_verification_status`: overwrite the
status of the identity-document row whatever its current status is, stamping
`verified_at` when the new status is `verified`. -/
def updateIdentityVerificationStatus (db : DB) (now : Nat) (applicationId : Nat)
    (newStatus : VerificationStatus) : VerifyResult × DB :=
  match db.verifications.find? (identityFor applicationId) with
  | none => (⟨false, "Identity verification not found"⟩, db)
  | some _ =>
      (⟨true, "Identity verification updated"⟩,
       { db with verifications :=
           (setFirst (identityFor applicationId)
             (fun v =>
               { v with status := newStatus,
                        verifiedAt :=
                          if newStatus = VerificationStatus.verified then some now
                          else v.verifiedAt })
             db.verifications) })

/-- `VerificationService.get_verification_status`, projected to one channel.
The source builds a Python dict keyed by channel, so for duplicate channel
rows the row appearing later in the table wins. -/
def getVerificationStatus (db : DB) (applicationId : Nat) (vt : VerificationType) :
    Option VerificationStatus :=
  (((db.verifications.filter (fun v => v.applicationId == applicationId)).reverse).find?
      (fun v => v.verificationType == vt)).map (fun v => v.status)

/-- The session mutation performed on the application row by
`WorkflowService._update_status`: set the new status, overwrite
`decision_reason` only when a reason was given, stamp `updated_at`. -/
def applyStatus (now : Nat) (status : LoanApplicationStatus) (reason : Option String)
    (a : LoanApplication) : LoanApplication :=
  { a with status := status,
           decisionReason :=
             match reason with
             | some r => some r
             | none => a.decisionReason,
           updatedAt := some now }

/-- Python `str.upper()` on the ASCII status values. -/
def upperAscii (s : String) : String := ⟨s.data.map Char.toUpper⟩

/-- The audit row `_update_status` appends for one status transition, tagged
`STATUS_CHANGED_` followed by `status.value.upper()`. -/
def statusAudit (applicationId : Nat) (status : LoanApplicationStatus)
    (reason : Option String) : AuditLog :=
  { applicationId := applicationId
    eventType := "STATUS_CHANGED_" ++ upperAscii (statusValue status)
    eventData := reason }

/-- `WorkflowService._update_status` (`app/services/workflow.py`): mutate the
application row and commit, then append the audit row and commit again — two
separate commits, not one transaction.  `sched k` says whether the k-th commit
of this call succeeds; the returned store is the state as of the last
successful commit, and the flag says whether the call finished without a
storage error. -/
def updateStatusSched (db : DB) (now : Nat) (application : LoanApplication)
    (status : LoanApplicationStatus) (reason : Option String) (sched : Nat → Bool) :
    DB × Bool :=
  let db1 : DB :=
    { db with applications :=
        (setFirst (fun a => a.id == application.id) (applyStatus now status reason)
          db.applications) }
  if !sched 0 then (db, false)
  else
    let db2 : DB :=
      { db1 with auditLogs := db1.auditLogs ++ [statusAudit application.id status reason] }
    if !sched 1 then (db1, false) else (db2, true)

/-- `_update_status` when storage is healthy: every commit succeeds. -/
def updateStatus (db : DB) (now : Nat) (application : LoanApplication)
    (status : LoanApplicationStatus) (reason : Option String) : DB :=
  (updateStatusSched db now application status reason (fun _ => true)).1

/-- `WorkflowService._wait_for_verification`: read the per-channel statuses;
when email and sms are not both `verified`, record `AWAITING_VERIFICATION` —
and then fall through and record `VERIFIED` unconditionally (the source's
"assume verification is complete for demo purposes" path). -/
def waitForVerification (db : DB) (now : Nat) (application : LoanApplication) : DB :=
  let completed : Bool :=
    getVerificationStatus db application.id VerificationType.email
        == some VerificationStatus.verified &&
    getVerificationStatus db application.id VerificationType.sms
        == some VerificationStatus.verified
  let db1 : DB :=
    if !completed then
      updateStatus db now application LoanApplicationStatus.awaitingVerification none
    else db
  updateStatus db1 now application LoanApplicationStatus.verified none

/-- Outcomes of the three background stage tasks of `app/workers/tasks.py`
for one workflow invocation: each stage either returns its payload or raises
after exhausting its own retries.  `enrichOutcome` is the
`external_data_verified` flag; `scoreOutcome` is `(auto_approve, auto_reject)`. -/
structure StageEnv where
  preprocessOutcome : Except String Unit
  enrichOutcome : Except String Bool
  scoreOutcome : Except String (Bool × Bool)

/-- What one `execute_workflow` invocation left behind: the persisted store,
the stage tasks dispatched (in dispatch order), and the exception that
propagated past `execute_workflow` to its caller, if any. -/
structure ExecOutcome where
  db : DB
  dispatched : List String
  raised : Option String
deriving Repr

/-- `WorkflowService.execute_workflow` (`app/services/workflow.py`): load the
application, run the verification-gate helper, then set each stage status and
dispatch the stage; on a stage exception, record `ERROR` with the failure
text and re-raise (`raise` after `_update_status` in the except block). -/
def executeWorkflow (db : DB) (now : Nat) (requestId : String) (env : StageEnv) :
    ExecOutcome :=
  match findApplication db requestId with
  | none => ⟨db, [], none⟩
  | some application =>
    let db1 := waitForVerification db now application
    let db2 := updateStatus db1 now application LoanApplicationStatus.preprocessing none
    match env.preprocessOutcome with
    | .error e =>
        ⟨updateStatus db2 now application LoanApplicationStatus.error (some e),
         ["preprocess_application"], some e⟩
    | .ok _ =>
      let db3 := updateStatus db2 now application LoanApplicationStatus.dataEnrichment none
      match env.enrichOutcome with
      | .error e =>
          ⟨updateStatus db3 now application LoanApplicationStatus.error (some e),
           ["preprocess_application", "enrich_application_data"], some e⟩
      | .ok dataVerified =>
        if dataVerified then
          let db4 := updateStatus db3 now application LoanApplicationStatus.scoring none
          match env.scoreOutcome with
          | .error e =>
              ⟨updateStatus db4 now application LoanApplicationStatus.error (some e),
               ["preprocess_application", "enrich_application_data", "calculate_risk_score"],
               some e⟩
          | .ok (autoApprove, autoReject) =>
            let db5 : DB :=
              if autoApprove then
                updateStatus db4 now application LoanApplicationStatus.approved
                  (some "Auto-approved based on risk score")
              else if autoReject then
                updateStatus db4 now application LoanApplicationStatus.rejected
                  (some "Auto-rejected based on risk score")
              else
                updateStatus db4 now application LoanApplicationStatus.manualReview
                  (some "Requires manual review")
            ⟨db5,
             ["preprocess_application", "enrich_application_data", "calculate_risk_score"],
             none⟩
        else
          ⟨updateStatus db3 now application LoanApplicationStatus.manualReview
             (some "Data verification required"),
           ["preprocess_application", "enrich_application_data"], none⟩

/-- Result observed by the task dispatcher for one
`process_application_workflow` run. -/
inductive TaskOutcome where
  | completed
  | retryScheduled (message : String)
deriving DecidableEq, Repr

/-- `process_application_workflow` (`app/workers/tasks.py`): call
`execute_workflow`; on an exception, log and call `self.retry`, i.e. the
dispatcher sees a retry request rather than a normal return. -/
def processApplicationWorkflow (db : DB) (now : Nat) (requestId : String)
    (env : StageEnv) : TaskOutcome × DB :=
  let out := executeWorkflow db now requestId env
  match out.raised with
  | some e => (TaskOutcome.retryScheduled e, out.db)
  | none => (TaskOutcome.completed, out.db)

/-- The exception text of the first stage task that raises during one
`execute_workflow` invocation, if any stage raises at all. -/
def firstStageError (env : StageEnv) : Option String :=
  match env.preprocessOutcome with
  | .error e => some e
  | .ok _ =>
    match env.enrichOutcome with
    | .error e => some e
    | .ok dataVerified =>
      if dataVerified then
        match env.scoreOutcome with
        | .error e => some e
        | .ok _ => none
      else none

/-- `EnumType` row (`app/models/enums.py`), restricted to the fields
`get_valid_enum_values` reads. -/
structure EnumType where
  id : Nat
  name : String
  isMultiSelect : Bool
  maxSelections : Option Nat
  isActive : Bool
deriving DecidableEq, Repr

/-- `EnumValue` row (`app/models/enums.py`), restricted to the fields
`get_valid_enum_values` reads. -/
structure EnumValue where
  id : Nat
  enumTypeId : Nat
  value : String
  isActive : Bool
deriving DecidableEq, Repr

/-- The enum tables of the record store. -/
structure EnumStore where
  enumTypes : List EnumType
  enumValues : List EnumValue
deriving DecidableEq, Repr

/-- The dict `get_valid_enum_values` returns (and caches). -/
structure EnumInfo where
  validValues : List String
  isMultiSelect : Bool
  maxSelections : Option Nat
deriving DecidableEq, Repr

/-- Outcome of the `redis.get` at the top of `get_valid_enum_values`: a cache
hit with a deserializable payload, a miss, or a raised cache error. -/
inductive CacheGet where
  | hit (info : EnumInfo)
  | miss
  | error
deriving DecidableEq, Repr

/-- Behavior of the distributed cache during one read: the `get` outcome and
whether the best-effort `set` write-through raises. -/
structure CacheEnv where
  get : CacheGet
  setFails : Bool
deriving DecidableEq, Repr

/-- The record-store computation inside `get_valid_enum_values`: the active
enum type of that name, its active values as `set(...)` then `list(...)`
(deduplicated, first occurrence kept), the multi-select flag and the
selection bound. -/
def storeEnumInfo (store : EnumStore) (enumName : String) : Option EnumInfo :=
  (store.enumTypes.find? (fun t => t.name == enumName && t.isActive)).map (fun t =>
    { validValues :=
        ((store.enumValues.filter (fun v => v.enumTypeId == t.id && v.isActive)).map
          (fun v => v.value)).dedup
      isMultiSelect := t.isMultiSelect
      maxSelections := t.maxSelections })

/-- `get_valid_enum_values` (`app/utils/enums.py`): try the cache; on a hit
return the cached dict; on a miss — or on a cache error, which is caught and
logged — fall back to the record store; a missing or inactive enum type
raises `ValueError`; the write-through `redis.set` is wrapped in its own
try/except, so its failure never changes the returned result.  The second
component is the value actually written through to the cache, if any. -/
def getValidEnumValues (store : EnumStore) (cache : CacheEnv) (enumName : String) :
    Except String EnumInfo × Option EnumInfo :=
  match cache.get with
  | .hit info => (.ok info, none)
  | .miss =>
    match storeEnumInfo store enumName with
    | none => (.error ("Enum type '" ++ enumName ++ "' not found or inactive"), none)
    | some info => (.ok info, if cache.setFails then none else some info)
  | .error =>
    match storeEnumInfo store enumName with
    | none => (.error ("Enum type '" ++ enumName ++ "' not found or inactive"), none)
    | some info => (.ok info, if cache.setFails then none else some info)

/-- `n` successive `verify_code` calls with the same submitted code. -/
def iterateVerify (now : Nat) (requestId code : String) (vt : VerificationType) :
    Nat → DB → DB
  | 0, db => db
  | n + 1, db => (verifyCode (iterateVerify now requestId code vt n db) now
      requestId code vt).2

/-! Concrete records used by the evaluation theorems and witnesses. -/

/-- A concrete application. -/
def demoApp : LoanApplication :=
  { id := 1, requestId := "r1", email := "a@example.com", phone := "5551234",
    status := LoanApplicationStatus.submitted, decisionReason := none, updatedAt := none }

/-- A pending email verification for `demoApp`, code `111111`, three attempts
allowed, expiring at time 100. -/
def demoPendingEmail : Verification :=
  { id := 0, applicationId := 1, category := VerificationCategory.contact,
    verificationType := VerificationType.email, verificationCode := some "111111",
    status := VerificationStatus.pending, attempts := 0, maxAttempts := 3,
    expiresAt := 100, verifiedAt := none }

/-- A store holding `demoApp` with a pending email verification and no sms
verification at all: the required channels are not all verified. -/
def demoDB : DB :=
  { applications := [demoApp]
    verifications := [demoPendingEmail]
    auditLogs := []
    nextVerificationId := 1 }

/-- Stage environment in which every stage succeeds, enrichment reports the
external data verified, and scoring auto-approves. -/
def envAllOk : StageEnv := ⟨.ok (), .ok true, .ok (true, false)⟩

/-- Stage environment in which the preprocessing task raises after its
retries are exhausted. -/
def envPreprocessFails : StageEnv := ⟨.error "Stage failure", .ok true, .ok (true, false)⟩

/-- The store after three successive `initiate_verification` calls for
(`demoApp`, email) starting from a store with no verifications. -/
def tripleInitiateDB : DB :=
  initiateVerification
    (initiateVerification
      (initiateVerification
        { applications := [demoApp], verifications := [], auditLogs := [],
          nextVerificationId := 0 }
        0 demoApp VerificationType.email VerificationCategory.contact "111111")
      1 demoApp VerificationType.email VerificationCategory.contact "222222")
    2 demoApp VerificationType.email VerificationCategory.contact "333333"

/-- An identity-document verification for `demoApp` already in the terminal
status `verified`. -/
def demoVerifiedIdentity : Verification :=
  { id := 0, applicationId := 1, category := VerificationCategory.identity,
    verificationType := VerificationType.identityDocument, verificationCode := none,
    status := VerificationStatus.verified, attempts := 0, maxAttempts := 3,
    expiresAt := 100, verifiedAt := some 50 }

/-- A store whose identity-document verification for `demoApp` is already in
the terminal status `verified`. -/
def idVerifiedDB : DB :=
  { applications := [demoApp]
    verifications := [demoVerifiedIdentity]
    auditLogs := []
    nextVerificationId := 1 }

/-- An email verification for `demoApp` already in status `verified`. -/
def demoVerifiedEmail : Verification :=
  { id := 0, applicationId := 1, category := VerificationCategory.contact,
    verificationType := VerificationType.email, verificationCode := some "111111",
    status := VerificationStatus.verified, attempts := 1, maxAttempts := 3,
    expiresAt := 100, verifiedAt := some 50 }

/-- A store whose email verification for `demoApp` is already `verified`, with
no pending row for the channel. -/
def emailVerifiedDB : DB :=
  { applications := [demoApp]
    verifications := [demoVerifiedEmail]
    auditLogs := []
    nextVerificationId := 1 }

/-- A pending, code-less identity-document verification for `demoApp`, as
`_create_verification` creates it. -/
def demoPendingIdentity : Verification :=
  { id := 0, applicationId := 1, category := VerificationCategory.identity,
    verificationType := VerificationType.identityDocument, verificationCode := none,
    status := VerificationStatus.pending, attempts := 0, maxAttempts := 3,
    expiresAt := 100, verifiedAt := none }

/-- A store whose identity-document verification for `demoApp` is pending. -/
def idPendingDB : DB :=
  { applications := [demoApp]
    verifications := [demoPendingIdentity]
    auditLogs := []
    nextVerificationId := 1 }

/-- A pending email verification for `demoApp` that has already expired
relative to time 200 and has one attempt left. -/
def demoExpiredPending : Verification :=
  { id := 0, applicationId := 1, category := VerificationCategory.contact,
    verificationType := VerificationType.email, verificationCode := some "111111",
    status := VerificationStatus.pending, attempts := 2, maxAttempts := 3,
    expiresAt := 100, verifiedAt := none }

/-- A store holding `demoExpiredPending`. -/
def expiredPendingDB : DB :=
  { applications := [demoApp]
    verifications := [demoExpiredPending]
    auditLogs := []
    nextVerificationId := 1 }

/-- Commit schedule under which the first commit of a `_update_status` call
succeeds and the second (the audit-row commit) fails. -/
def secondCommitFails : Nat → Bool := fun k => k == 0

/-- A record store with one active enum type `housing_type` owning two active
values and one inactive one. -/
def demoEnumStore : EnumStore :=
  { enumTypes :=
      [{ id := 1, name := "housing_type", isMultiSelect := false,
         maxSelections := none, isActive := true }]
    enumValues :=
      [{ id := 1, enumTypeId := 1, value := "own", isActive := true },
       { id := 2, enumTypeId := 1, value := "rent", isActive := true },
       { id := 3, enumTypeId := 1, value := "squat", isActive := false }] }

/-! Helper lemmas about `setFirst` and the queries. -/

theorem setFirst_length (p : α → Bool) (f : α → α) :
    ∀ l : List α, (setFirst p f l).length = l.length := by
  intro l
  induction l with
  | nil => rfl
  | cons x xs ih =>
      simp only [setFirst]
      by_cases h : p x <;> simp [h, ih]

theorem mem_setFirst_of_find? (p : α → Bool) (f : α → α) :
    ∀ (l : List α) (a : α), l.find? p = some a → f a ∈ setFirst p f l := by
  intro l
  induction l with
  | nil => intro a h; simp [List.find?] at h
  | cons x xs ih =>
      intro a h
      by_cases hx : p x
      · rw [List.find?_cons_of_pos _ hx] at h
        cases h
        simp [setFirst, hx]
      · rw [List.find?_cons_of_neg _ hx] at h
        simp [setFirst, hx, ih a h]

theorem find?_setFirst (p : α → Bool) (f : α → α)
    (hpf : ∀ a, p a = true → p (f a) = true) :
    ∀ l : List α, (setFirst p f l).find? p = (l.find? p).map f := by
  intro l
  induction l with
  | nil => rfl
  | cons x xs ih =>
      by_cases hx : p x
      · simp [setFirst, hx, List.find?_cons_of_pos _ (hpf x hx),
          List.find?_cons_of_pos _ hx]
      · simp [setFirst, hx, List.find?_cons_of_neg _ hx, ih]

theorem setFirst_forall₂ (p : α → Bool) (f : α → α) (R : α → α → Prop)
    (hrefl : ∀ a, R a a) (hf : ∀ a, p a = true → R a (f a)) :
    ∀ l : List α, List.Forall₂ R l (setFirst p f l) := by
  intro l
  induction l with
  | nil => exact List.Forall₂.nil
  | cons x xs ih =>
      by_cases hx : p x
      · simp only [setFirst, hx, if_pos]
        exact List.Forall₂.cons (hf x hx) (List.forall₂_same.2 (fun a _ => hrefl a))
      · simp only [setFirst, hx]
        exact List.Forall₂.cons (hrefl x) ih

/-! The claims. -/

/-- C1: the verification gate does not halt the pipeline.  On a store whose
email verification is pending and whose sms channel has no verification at
all (so the required channels are not all `verified`), one
`execute_workflow` invocation records `AWAITING_VERIFICATION`, then
immediately records `VERIFIED`, dispatches preprocess, enrich and score, and
ends at `APPROVED` — instead of halting as the claim states. -/
theorem gate_not_enforced :
    getVerificationStatus demoDB 1 VerificationType.email
        ≠ some VerificationStatus.verified ∧
    getVerificationStatus demoDB 1 VerificationType.sms
        ≠ some VerificationStatus.verified ∧
    (executeWorkflow demoDB 0 "r1" envAllOk).dispatched =
      ["preprocess_application", "enrich_application_data", "calculate_risk_score"] ∧
    ((executeWorkflow demoDB 0 "r1" envAllOk).db.applications.map (fun a => a.status)) =
      [LoanApplicationStatus.approved] ∧
    ((executeWorkflow demoDB 0 "r1" envAllOk).db.auditLogs.map (fun l => l.eventType)) =
      ["STATUS_CHANGED_AWAITING_VERIFICATION", "STATUS_CHANGED_VERIFIED",
       "STATUS_CHANGED_PREPROCESSING", "STATUS_CHANGED_DATA_ENRICHMENT",
       "STATUS_CHANGED_SCORING", "STATUS_CHANGED_APPROVED"] := by decide

/-- C3: after three `initiate_verification` calls for the same (application,
email) pair on an insertion-ordered store, two rows are `pending` at once:
the third call's pending-or-expired `.first()` query returns the oldest
(already expired) row and expires it again, leaving the second call's pending
row untouched. -/
theorem pending_not_unique :
    (tripleInitiateDB.verifications.map (fun v => v.status)) =
      [VerificationStatus.expired, VerificationStatus.pending,
       VerificationStatus.pending] ∧
    ((tripleInitiateDB.verifications.filter (pendingFor 1 VerificationType.email)).length)
      = 2 := by decide

/-- C2 counterexample: a status transition is two separate commits, not one
atomic unit.  Under a schedule where the first commit succeeds and the second
fails, the call reports a storage error, yet the new status is persisted
while no audit row is — a partial write. -/
theorem update_status_torn_write :
    (updateStatusSched demoDB 5 demoApp LoanApplicationStatus.preprocessing none
        secondCommitFails).2 = false ∧
    ((updateStatusSched demoDB 5 demoApp LoanApplicationStatus.preprocessing none
        secondCommitFails).1.applications.map (fun a => a.status)) =
      [LoanApplicationStatus.preprocessing] ∧
    (updateStatusSched demoDB 5 demoApp LoanApplicationStatus.preprocessing none
        secondCommitFails).1.auditLogs = demoDB.auditLogs := by decide

/-- C5 counterexample: after exactly `max_attempts = 3` mismatched
`verify_code` calls on a fresh pending verification, the record is still
`pending` with `attempts = 3`, not `failed` as the claim states. -/
theorem exhaustion_not_failed_yet :
    ((iterateVerify 0 "r1" "000000" VerificationType.email 3 demoDB).verifications.map
        (fun v => v.status)) = [VerificationStatus.pending] ∧
    ((iterateVerify 0 "r1" "000000" VerificationType.email 3 demoDB).verifications.map
        (fun v => v.attempts)) = [3] ∧
    VerificationStatus.pending ≠ VerificationStatus.failed := by decide

/-- C6 counterexample: `update_identity_verification_status` moves a record
out of the terminal status `verified`: on a store whose identity-document row
is `verified`, updating to `failed` succeeds and overwrites the status. -/
theorem terminal_state_left :
    ((updateIdentityVerificationStatus idVerifiedDB 7 1 VerificationStatus.failed).2.verifications.map
        (fun v => v.status)) = [VerificationStatus.failed] ∧
    (updateIdentityVerificationStatus idVerifiedDB 7 1 VerificationStatus.failed).1.success
      = true ∧
    VerificationStatus.verified ≠ VerificationStatus.failed := by decide

/-- C7 counterexample: when the preprocessing stage fails, `execute_workflow`
records `ERROR` but then re-raises — the exception propagates to the task
wrapper, which schedules a retry instead of returning normally. -/
theorem workflow_reraises :
    (executeWorkflow demoDB 0 "r1" envPreprocessFails).raised = some "Stage failure" ∧
    ((executeWorkflow demoDB 0 "r1" envPreprocessFails).db.applications.map
        (fun a => a.status)) = [LoanApplicationStatus.error] ∧
    (processApplicationWorkflow demoDB 0 "r1" envPreprocessFails).1 =
      TaskOutcome.retryScheduled "Stage failure" := by decide

/-- C4: expiry precedence.  For a pending verification on its last allowed
attempt (`attempts = max_attempts - 1`) whose deadline has passed, a
`verify_code` call with the correct code fails with the expiry message — not
the exhaustion message, not success — and the record moves to `expired`. -/
theorem expiry_checked_before_exhaustion (db : DB) (now : Nat) (rid code : String)
    (vt : VerificationType) (app : LoanApplication) (v : Verification)
    (happ : findApplication db rid = some app)
    (hv : findPendingVerification db app.id vt = some v)
    (_hatt : v.attempts = v.maxAttempts - 1)
    (_hcode : v.verificationCode = some code)
    (hexp : v.expiresAt < now) :
    (verifyCode db now rid code vt).1 = ⟨false, "Verification code expired"⟩ ∧
    { v with status := VerificationStatus.expired } ∈
      (verifyCode db now rid code vt).2.verifications := by
  simp only [verifyCode, happ, hv, if_pos hexp]
  exact ⟨trivial, mem_setFirst_of_find? _ _ _ _ hv⟩

/-- C4 witness: the theorem applied to `expiredPendingDB` at time 200 with
the correct code. -/
theorem expiry_checked_before_exhaustion_witness :
    (findApplication expiredPendingDB "r1" = some demoApp ∧
     findPendingVerification expiredPendingDB 1 VerificationType.email =
       some demoExpiredPending ∧
     demoExpiredPending.attempts = demoExpiredPending.maxAttempts - 1 ∧
     demoExpiredPending.verificationCode = some "111111" ∧
     demoExpiredPending.expiresAt < 200) ∧
    ((verifyCode expiredPendingDB 200 "r1" "111111" VerificationType.email).1 =
       ⟨false, "Verification code expired"⟩ ∧
     { demoExpiredPending with status := VerificationStatus.expired } ∈
       (verifyCode expiredPendingDB 200 "r1" "111111" VerificationType.email).2.verifications) :=
  ⟨by decide,
   expiry_checked_before_exhaustion expiredPendingDB 200 "r1" "111111"
     VerificationType.email demoApp demoExpiredPending (by decide) (by decide)
     (by decide) (by decide) (by decide)⟩

/-- C8: idempotence for a completed channel.  When the application resolves
but no `pending` row exists for the channel (here because the existing row is
already `verified`), `verify_code` returns the not-found failure and leaves
the store — in particular `attempts` and `verified_at` of the verified row —
completely unchanged. -/
theorem verified_channel_unchanged (db : DB) (now : Nat) (rid code : String)
    (vt : VerificationType) (app : LoanApplication) (v : Verification)
    (happ : findApplication db rid = some app)
    (_hmem : v ∈ db.verifications) (_hva : v.applicationId = app.id)
    (_hvt : v.verificationType = vt)
    (_hst : v.status = VerificationStatus.verified)
    (hnone : findPendingVerification db app.id vt = none) :
    verifyCode db now rid code vt =
      (⟨false, "Verification not found or already completed"⟩, db) := by
  simp only [verifyCode, happ, hnone]

/-- C8 witness: the theorem applied to `emailVerifiedDB`. -/
theorem verified_channel_unchanged_witness :
    (findApplication emailVerifiedDB "r1" = some demoApp ∧
     demoVerifiedEmail ∈ emailVerifiedDB.verifications ∧
     demoVerifiedEmail.applicationId = 1 ∧
     demoVerifiedEmail.verificationType = VerificationType.email ∧
     demoVerifiedEmail.status = VerificationStatus.verified ∧
     findPendingVerification emailVerifiedDB 1 VerificationType.email = none) ∧
    verifyCode emailVerifiedDB 0 "r1" "111111" VerificationType.email =
      (⟨false, "Verification not found or already completed"⟩, emailVerifiedDB) :=
  ⟨by decide,
   verified_channel_unchanged emailVerifiedDB 0 "r1" "111111" VerificationType.email
     demoApp demoVerifiedEmail (by decide) (by decide) (by decide) (by decide)
     (by decide) (by decide)⟩

/-- C9: cache failures never turn an enum read into an error.  For an enum
name whose type is present and active in the record store, the read with a
raising cache `get` and a raising write-through still returns the
store-derived result, equal to the result under a healthy empty cache; a
failing write-through alone changes nothing either. -/
theorem enum_read_survives_cache_outage (store : EnumStore) (enumName : String)
    (info : EnumInfo) (hstore : storeEnumInfo store enumName = some info) :
    (getValidEnumValues store ⟨CacheGet.error, true⟩ enumName).1 = Except.ok info ∧
    (getValidEnumValues store ⟨CacheGet.error, true⟩ enumName).1 =
      (getValidEnumValues store ⟨CacheGet.miss, false⟩ enumName).1 ∧
    (getValidEnumValues store ⟨CacheGet.miss, true⟩ enumName).1 =
      (getValidEnumValues store ⟨CacheGet.miss, false⟩ enumName).1 := by
  simp [getValidEnumValues, hstore]

/-- C9 witness: the theorem applied to `demoEnumStore` and `housing_type`. -/
theorem enum_read_survives_cache_outage_witness :
    (storeEnumInfo demoEnumStore "housing_type" =
       some { validValues := ["own", "rent"], isMultiSelect := false,
              maxSelections := none }) ∧
    ((getValidEnumValues demoEnumStore ⟨CacheGet.error, true⟩ "housing_type").1 =
       Except.ok { validValues := ["own", "rent"], isMultiSelect := false,
                   maxSelections := none } ∧
     (getValidEnumValues demoEnumStore ⟨CacheGet.error, true⟩ "housing_type").1 =
       (getValidEnumValues demoEnumStore ⟨CacheGet.miss, false⟩ "housing_type").1 ∧
     (getValidEnumValues demoEnumStore ⟨CacheGet.miss, true⟩ "housing_type").1 =
       (getValidEnumValues demoEnumStore ⟨CacheGet.miss, false⟩ "housing_type").1) :=
  ⟨by decide,
   enum_read_survives_cache_outage demoEnumStore "housing_type"
     { validValues := ["own", "rent"], isMultiSelect := false, maxSelections := none }
     (by decide)⟩

/-- C10: the identity-document channel is code-less, so `verify_code` can
never succeed on it.  `_create_verification` stores no code for that channel,
and for any pending code-less identity-document row inside the expiry window
and the attempt limit, every submitted code fails with "Invalid verification
code" while `attempts` is incremented. -/
theorem identity_channel_never_verifiable_by_code :
    (∀ (db : DB) (now appId : Nat) (cat : VerificationCategory) (fresh : String),
      (createVerification db now appId cat VerificationType.identityDocument
        fresh).1.verificationCode = none) ∧
    (∀ (db : DB) (now : Nat) (rid submitted : String) (app : LoanApplication)
        (v : Verification),
      findApplication db rid = some app →
      findPendingVerification db app.id VerificationType.identityDocument = some v →
      v.verificationCode = none →
      ¬ v.expiresAt < now →
      v.attempts < v.maxAttempts →
      (verifyCode db now rid submitted VerificationType.identityDocument).1 =
        ⟨false, "Invalid verification code"⟩ ∧
      { v with attempts := v.attempts + 1 } ∈
        (verifyCode db now rid submitted VerificationType.identityDocument).2.verifications) := by
  constructor
  · intro db now appId cat fresh
    rfl
  · intro db now rid submitted app v happ hv hcode hexp hlt
    have hle : ¬ v.maxAttempts ≤ v.attempts := by omega
    have hco : (v.verificationCode == some submitted) = false := by
      simp [hcode]
    simp only [verifyCode, happ, hv, if_neg hexp, if_neg hle, hco, Bool.false_eq_true,
      if_false]
    exact ⟨trivial, mem_setFirst_of_find? _ _ _ _ hv⟩

/-- C10 witness: both parts applied to concrete inputs — a fresh
identity-document verification has no code, and a `verify_code` call against
`idPendingDB` fails and increments `attempts`. -/
theorem identity_channel_never_verifiable_by_code_witness :
    (createVerification demoDB 0 1 VerificationCategory.identity
       VerificationType.identityDocument "999999").1.verificationCode = none ∧
    ((findApplication idPendingDB "r1" = some demoApp ∧
      findPendingVerification idPendingDB 1 VerificationType.identityDocument =
        some demoPendingIdentity ∧
      demoPendingIdentity.verificationCode = none ∧
      ¬ demoPendingIdentity.expiresAt < 0 ∧
      demoPendingIdentity.attempts < demoPendingIdentity.maxAttempts) ∧
     ((verifyCode idPendingDB 0 "r1" "123456" VerificationType.identityDocument).1 =
        ⟨false, "Invalid verification code"⟩ ∧
      { demoPendingIdentity with attempts := demoPendingIdentity.attempts + 1 } ∈
        (verifyCode idPendingDB 0 "r1" "123456"
          VerificationType.identityDocument).2.verifications)) :=
  ⟨identity_channel_never_verifiable_by_code.1 demoDB 0 1
     VerificationCategory.identity "999999",
   ⟨by decide,
    identity_channel_never_verifiable_by_code.2 idPendingDB 0 "r1" "123456" demoApp
      demoPendingIdentity (by decide) (by decide) (by decide) (by decide) (by decide)⟩⟩

/-- Evaluation of `verify_code` on a one-application, one-verification store
when the submitted code mismatches and neither expiry nor exhaustion fires:
`attempts` is incremented and the call fails with the invalid-code message. -/
theorem verifyCode_single_mismatch (app : LoanApplication) (w : Verification)
    (al : List AuditLog) (m now : Nat) (code : String) (vt : VerificationType)
    (hva : w.applicationId = app.id) (hvt : w.verificationType = vt)
    (hst : w.status = VerificationStatus.pending)
    (hexp : ¬ w.expiresAt < now) (hlt : w.attempts < w.maxAttempts)
    (hwrong : w.verificationCode ≠ some code) :
    verifyCode ⟨[app], [w], al, m⟩ now app.requestId code vt =
      (⟨false, "Invalid verification code"⟩,
       ⟨[app], [{ w with attempts := w.attempts + 1 }], al, m⟩) := by
  have hfa : findApplication ⟨[app], [w], al, m⟩ app.requestId = some app := by
    simp [findApplication, List.find?]
  have hpend : pendingFor app.id vt w = true := by
    simp [pendingFor, hva, hvt, hst]
  have hfv : findPendingVerification ⟨[app], [w], al, m⟩ app.id vt = some w := by
    simp [findPendingVerification, List.find?, hpend]
  have hle : ¬ w.maxAttempts ≤ w.attempts := by omega
  have hco : (w.verificationCode == some code) = false := by
    simp [hwrong]
  simp only [verifyCode, hfa, hfv, if_neg hexp, if_neg hle, hco, Bool.false_eq_true,
    if_false, setFirst, hpend, if_pos]

/-- Evaluation of `verify_code` on a one-application, one-verification store
when the pending record has exhausted its attempts: the record moves to
`failed` without a further increment, whatever code is submitted. -/
theorem verifyCode_single_exhausted (app : LoanApplication) (w : Verification)
    (al : List AuditLog) (m now : Nat) (code : String) (vt : VerificationType)
    (hva : w.applicationId = app.id) (hvt : w.verificationType = vt)
    (hst : w.status = VerificationStatus.pending)
    (hexp : ¬ w.expiresAt < now) (hge : w.maxAttempts ≤ w.attempts) :
    verifyCode ⟨[app], [w], al, m⟩ now app.requestId code vt =
      (⟨false, "Maximum attempts exceeded"⟩,
       ⟨[app], [{ w with status := VerificationStatus.failed }], al, m⟩) := by
  have hfa : findApplication ⟨[app], [w], al, m⟩ app.requestId = some app := by
    simp [findApplication, List.find?]
  have hpend : pendingFor app.id vt w = true := by
    simp [pendingFor, hva, hvt, hst]
  have hfv : findPendingVerification ⟨[app], [w], al, m⟩ app.id vt = some w := by
    simp [findPendingVerification, List.find?, hpend]
  simp only [verifyCode, hfa, hfv, if_neg hexp, if_pos hge, setFirst, hpend, if_pos]

/-- Iterating mismatched `verify_code` calls on a one-verification store adds
one attempt per call while the record stays `pending`, as long as the attempt
limit is not yet exceeded. -/
theorem iterateVerify_mismatch (app : LoanApplication) (v : Verification)
    (al : List AuditLog) (m now : Nat) (wrong : String)
    (hva : v.applicationId = app.id) (hst : v.status = VerificationStatus.pending)
    (hexp : ¬ v.expiresAt < now) (hwrong : v.verificationCode ≠ some wrong) :
    ∀ j k, j + k ≤ v.maxAttempts →
      iterateVerify now app.requestId wrong v.verificationType j
          ⟨[app], [{ v with attempts := k }], al, m⟩ =
        ⟨[app], [{ v with attempts := k + j }], al, m⟩ := by
  intro j
  induction j with
  | zero => intro k _; rfl
  | succ n ih =>
      intro k hk
      have h1 := ih k (by omega)
      have h2 := verifyCode_single_mismatch app { v with attempts := k + n } al m now
        wrong v.verificationType hva rfl hst hexp
        (show k + n < v.maxAttempts by omega) hwrong
      simp only [iterateVerify, h1, h2, Nat.add_succ]

/-- C5 amended: on a store holding one application and one fresh, unexpired
pending verification, `max_attempts` mismatched `verify_code` calls leave the
record `pending` with `attempts = max_attempts`; the next call — even with
the correct code — fails with "Maximum attempts exceeded", moves the record
to `failed`, and does not increment `attempts` further. -/
theorem attempts_exhausted_on_next_call (app : LoanApplication) (v : Verification)
    (now : Nat) (wrong right : String)
    (hva : v.applicationId = app.id)
    (hst : v.status = VerificationStatus.pending)
    (hatt : v.attempts = 0)
    (hexp : ¬ v.expiresAt < now)
    (hwrong : v.verificationCode ≠ some wrong)
    (hright : v.verificationCode = some right) :
    iterateVerify now app.requestId wrong v.verificationType v.maxAttempts
        ⟨[app], [v], [], 0⟩ =
      ⟨[app], [{ v with attempts := v.maxAttempts }], [], 0⟩ ∧
    ({ v with attempts := v.maxAttempts } : Verification).status =
      VerificationStatus.pending ∧
    verifyCode ⟨[app], [{ v with attempts := v.maxAttempts }], [], 0⟩ now
        app.requestId right v.verificationType =
      (⟨false, "Maximum attempts exceeded"⟩,
       ⟨[app], [{ v with attempts := v.maxAttempts, status := VerificationStatus.failed }], [], 0⟩) := by
  have hv0 : ({ v with attempts := 0 } : Verification) = v := by
    cases v
    simp_all
  have h1 := iterateVerify_mismatch app v [] 0 now wrong hva hst hexp hwrong
    v.maxAttempts 0 (by omega)
  rw [hv0] at h1
  refine ⟨by simpa using h1, hst, ?_⟩
  exact verifyCode_single_exhausted app { v with attempts := v.maxAttempts } [] 0 now
    right v.verificationType hva rfl hst hexp (Nat.le_refl _)

/-- C5 amended witness: the theorem applied to `demoApp` and
`demoPendingEmail` with wrong code `000000` and correct code `111111`. -/
theorem attempts_exhausted_on_next_call_witness :
    (demoPendingEmail.applicationId = demoApp.id ∧
     demoPendingEmail.status = VerificationStatus.pending ∧
     demoPendingEmail.attempts = 0 ∧
     ¬ demoPendingEmail.expiresAt < 0 ∧
     demoPendingEmail.verificationCode ≠ some "000000" ∧
     demoPendingEmail.verificationCode = some "111111") ∧
    (iterateVerify 0 demoApp.requestId "000000" demoPendingEmail.verificationType
        demoPendingEmail.maxAttempts ⟨[demoApp], [demoPendingEmail], [], 0⟩ =
      ⟨[demoApp], [{ demoPendingEmail with attempts := demoPendingEmail.maxAttempts }],
       [], 0⟩ ∧
     ({ demoPendingEmail with attempts := demoPendingEmail.maxAttempts } :
        Verification).status = VerificationStatus.pending ∧
     verifyCode
        ⟨[demoApp], [{ demoPendingEmail with attempts := demoPendingEmail.maxAttempts }],
         [], 0⟩ 0 demoApp.requestId "111111" demoPendingEmail.verificationType =
       (⟨false, "Maximum attempts exceeded"⟩,
        ⟨[demoApp], [{ demoPendingEmail with attempts := demoPendingEmail.maxAttempts, status := VerificationStatus.failed }], [], 0⟩)) :=
  ⟨by decide,
   attempts_exhausted_on_next_call demoApp demoPendingEmail 0 "000000" "111111"
     (by decide) (by decide) (by decide) (by decide) (by decide) (by decide)⟩

theorem pendingFor_status (i : Nat) (t : VerificationType) (a : Verification)
    (h : pendingFor i t a = true) : a.status = VerificationStatus.pending := by
  simp only [pendingFor, Bool.and_eq_true, beq_iff_eq] at h
  exact h.2

theorem activeFor_status (i : Nat) (t : VerificationType) (a : Verification)
    (h : activeFor i t a = true) :
    a.status = VerificationStatus.pending ∨ a.status = VerificationStatus.expired := by
  simp only [activeFor, Bool.and_eq_true, Bool.or_eq_true, beq_iff_eq] at h
  exact h.2

/-- Any `verify_code` call leaves every non-`pending` row's status unchanged:
the only rows it rewrites are found by a `status = pending` query. -/
theorem verifyCode_preserves_nonpending (db : DB) (now : Nat) (rid code : String)
    (vt : VerificationType) :
    List.Forall₂
      (fun r w => r.status ≠ VerificationStatus.pending → w.status = r.status)
      db.verifications ((verifyCode db now rid code vt).2.verifications) := by
  have hsame : List.Forall₂
      (fun (r w : Verification) => r.status ≠ VerificationStatus.pending →
        w.status = r.status)
      db.verifications db.verifications :=
    List.forall₂_same.2 (fun a _ _ => rfl)
  have hset : ∀ (i : Nat) (t : VerificationType) (f : Verification → Verification),
      List.Forall₂
        (fun r w => r.status ≠ VerificationStatus.pending → w.status = r.status)
        db.verifications (setFirst (pendingFor i t) f db.verifications) :=
    fun i t f => setFirst_forall₂ _ _ _ (fun _ _ => rfl)
      (fun a ha h => absurd (pendingFor_status i t a ha) h) db.verifications
  rcases hfa : findApplication db rid with _ | a
  · simp only [verifyCode, hfa]
    exact hsame
  · rcases hfv : findPendingVerification db a.id vt with _ | v1
    · simp only [verifyCode, hfa, hfv]
      exact hsame
    · by_cases h1 : v1.expiresAt < now
      · simp only [verifyCode, hfa, hfv, if_pos h1]
        exact hset a.id vt _
      · by_cases h2 : v1.maxAttempts ≤ v1.attempts
        · simp only [verifyCode, hfa, hfv, if_neg h1, if_pos h2]
          exact hset a.id vt _
        · by_cases h3 : (v1.verificationCode == some code) = true
          · simp only [verifyCode, hfa, hfv, if_neg h1, if_neg h2, h3, if_true]
            exact hset a.id vt _
          · rw [Bool.not_eq_true] at h3
            simp only [verifyCode, hfa, hfv, if_neg h1, if_neg h2, h3,
              Bool.false_eq_true, if_false]
            exact hset a.id vt _

/-- Any `initiate_verification` call leaves every existing non-`pending`
row's status unchanged: the one row it may rewrite is pending-or-expired and
is rewritten to `expired`. -/
theorem initiate_preserves_nonpending (db : DB) (now : Nat)
    (app : LoanApplication) (vt : VerificationType) (cat : VerificationCategory)
    (fresh : String) :
    List.Forall₂
      (fun r w => r.status ≠ VerificationStatus.pending → w.status = r.status)
      db.verifications
      (((initiateVerification db now app vt cat fresh).verifications).take
        db.verifications.length) := by
  rcases hf : db.verifications.find? (activeFor app.id vt) with _ | w
  · simp only [initiateVerification, createVerification, hf, List.take_left]
    exact List.forall₂_same.2 (fun a _ _ => rfl)
  · simp only [initiateVerification, createVerification, hf]
    have hlen : db.verifications.length =
        (setFirst (activeFor app.id vt)
          (fun v => { v with status := VerificationStatus.expired })
          db.verifications).length := (setFirst_length _ _ _).symm
    rw [hlen, List.take_left]
    refine setFirst_forall₂ _ _ _ (fun _ _ => rfl) (fun a ha h => ?_) _
    rcases activeFor_status app.id vt a ha with hp | he
    · exact absurd hp h
    · simp [he]

/-- C6 amended: rows in a terminal status are never moved by
`initiate_verification` or `verify_code` — each existing row either keeps its
status or was `pending` before the call (for `initiate_verification`, over
the rows that existed before the appended fresh one).
`update_identity_verification_status` is the exception: it overwrites the
identity row's status whatever its current status is. -/
theorem terminal_rows_preserved (db : DB) (now : Nat) (rid code fresh : String)
    (vt : VerificationType) (app : LoanApplication) (cat : VerificationCategory) :
    List.Forall₂
      (fun r w => r.status ≠ VerificationStatus.pending → w.status = r.status)
      db.verifications ((verifyCode db now rid code vt).2.verifications) ∧
    List.Forall₂
      (fun r w => r.status ≠ VerificationStatus.pending → w.status = r.status)
      db.verifications
      (((initiateVerification db now app vt cat fresh).verifications).take
        db.verifications.length) :=
  ⟨verifyCode_preserves_nonpending db now rid code vt,
   initiate_preserves_nonpending db now app vt cat fresh⟩

theorem find?_setFirst_id (now : Nat) (st : LoanApplicationStatus)
    (reason : Option String) (appId : Nat) (l : List LoanApplication) :
    (setFirst (fun x => x.id == appId) (applyStatus now st reason) l).find?
        (fun x => x.id == appId) =
      (l.find? (fun x => x.id == appId)).map (applyStatus now st reason) :=
  find?_setFirst (fun x => x.id == appId) (applyStatus now st reason)
    (fun _ hx => hx) l

/-- C2 amended: `_update_status` is two separate commits, not one atomic
unit.  The call succeeds exactly when both commits do; the single audit row
`STATUS_CHANGED_<STATE>` (with the reason) is appended exactly when both
commits succeed; and the status update persists whenever the first commit
succeeds — in particular, with the first commit succeeding and the second
failing, the status is persisted while the audit row is not. -/
theorem status_transition_two_commits (db : DB) (now : Nat)
    (app a : LoanApplication) (st : LoanApplicationStatus) (reason : Option String)
    (sched : Nat → Bool)
    (hfind : db.applications.find? (fun x => x.id == app.id) = some a) :
    (updateStatusSched db now app st reason sched).2 = (sched 0 && sched 1) ∧
    (updateStatusSched db now app st reason sched).1.auditLogs =
      (if sched 0 && sched 1 then db.auditLogs ++ [statusAudit app.id st reason]
       else db.auditLogs) ∧
    ((updateStatusSched db now app st reason sched).1.applications.find?
        (fun x => x.id == app.id)).map (fun x => x.status) =
      (if sched 0 then some st else some a.status) := by
  by_cases h0 : sched 0
  · by_cases h1 : sched 1
    · simp [updateStatusSched, h0, h1, find?_setFirst_id, hfind, applyStatus]
    · simp [updateStatusSched, h0, h1, find?_setFirst_id, hfind, applyStatus]
  · simp [updateStatusSched, h0, hfind]

/-- C2 amended witness: the theorem applied to `demoDB` under the schedule
whose second commit fails. -/
theorem status_transition_two_commits_witness :
    (demoDB.applications.find? (fun x => x.id == demoApp.id) = some demoApp) ∧
    ((updateStatusSched demoDB 5 demoApp LoanApplicationStatus.preprocessing none
        secondCommitFails).2 = (secondCommitFails 0 && secondCommitFails 1) ∧
     (updateStatusSched demoDB 5 demoApp LoanApplicationStatus.preprocessing none
        secondCommitFails).1.auditLogs =
       (if secondCommitFails 0 && secondCommitFails 1 then
          demoDB.auditLogs ++
            [statusAudit demoApp.id LoanApplicationStatus.preprocessing none]
        else demoDB.auditLogs) ∧
     ((updateStatusSched demoDB 5 demoApp LoanApplicationStatus.preprocessing none
        secondCommitFails).1.applications.find?
          (fun x => x.id == demoApp.id)).map (fun x => x.status) =
       (if secondCommitFails 0 then some LoanApplicationStatus.preprocessing
        else some demoApp.status)) :=
  ⟨by decide,
   status_transition_two_commits demoDB 5 demoApp demoApp
     LoanApplicationStatus.preprocessing none secondCommitFails (by decide)⟩

theorem updateStatus_find_by_id (db : DB) (now : Nat) (app : LoanApplication)
    (st : LoanApplicationStatus) (reason : Option String) :
    (updateStatus db now app st reason).applications.find? (fun x => x.id == app.id) =
      (db.applications.find? (fun x => x.id == app.id)).map
        (applyStatus now st reason) := by
  simp [updateStatus, updateStatusSched, find?_setFirst_id]

theorem updateStatus_find_isSome (db : DB) (now : Nat) (app : LoanApplication)
    (st : LoanApplicationStatus) (reason : Option String) :
    ((updateStatus db now app st reason).applications.find?
        (fun x => x.id == app.id)).isSome =
      (db.applications.find? (fun x => x.id == app.id)).isSome := by
  rw [updateStatus_find_by_id]
  cases db.applications.find? (fun x => x.id == app.id) <;> rfl

theorem waitForVerification_find_isSome (db : DB) (now : Nat)
    (app : LoanApplication) :
    ((waitForVerification db now app).applications.find?
        (fun x => x.id == app.id)).isSome =
      (db.applications.find? (fun x => x.id == app.id)).isSome := by
  unfold waitForVerification
  rw [updateStatus_find_isSome]
  split
  · rw [updateStatus_find_isSome]
  · rfl

/-- Recording `ERROR` with a reason makes the application row (found by id)
carry status `ERROR` and that reason. -/
theorem updateStatus_error_projection (db : DB) (now : Nat)
    (app : LoanApplication) (msg : String)
    (h : ((db.applications.find? (fun x => x.id == app.id))).isSome = true) :
    ((updateStatus db now app LoanApplicationStatus.error
        (some msg)).applications.find? (fun x => x.id == app.id)).map
        (fun x => x.status) = some LoanApplicationStatus.error ∧
    ((updateStatus db now app LoanApplicationStatus.error
        (some msg)).applications.find? (fun x => x.id == app.id)).map
        (fun x => x.decisionReason) = some (some msg) := by
  rw [updateStatus_find_by_id]
  obtain ⟨x, hx⟩ := Option.isSome_iff_exists.mp h
  rw [hx]
  exact ⟨rfl, rfl⟩

/-- C7 amended: when the first failing stage of an invocation raises with
text `msg`, `execute_workflow` records status `ERROR` with `decision_reason =
msg` on the application and then re-raises `msg`; the task wrapper
`process_application_workflow` catches it and schedules a retry, so the
dispatcher does not observe a normal return. -/
theorem stage_failure_recorded_then_reraised (db : DB) (now : Nat)
    (rid msg : String) (env : StageEnv) (app : LoanApplication)
    (happ : findApplication db rid = some app)
    (hid : (db.applications.find? (fun x => x.id == app.id)).isSome = true)
    (hfail : firstStageError env = some msg) :
    (executeWorkflow db now rid env).raised = some msg ∧
    ((executeWorkflow db now rid env).db.applications.find?
        (fun x => x.id == app.id)).map (fun x => x.status) =
      some LoanApplicationStatus.error ∧
    ((executeWorkflow db now rid env).db.applications.find?
        (fun x => x.id == app.id)).map (fun x => x.decisionReason) =
      some (some msg) ∧
    (processApplicationWorkflow db now rid env).1 =
      TaskOutcome.retryScheduled msg := by
  have main : (executeWorkflow db now rid env).raised = some msg ∧
      ∃ dbx : DB,
        (executeWorkflow db now rid env).db =
          updateStatus dbx now app LoanApplicationStatus.error (some msg) ∧
        (dbx.applications.find? (fun x => x.id == app.id)).isSome = true := by
    unfold firstStageError at hfail
    rcases hpre : env.preprocessOutcome with e | u
    · rw [hpre] at hfail
      cases hfail
      refine ⟨by simp [executeWorkflow, happ, hpre],
        updateStatus (waitForVerification db now app) now app
          LoanApplicationStatus.preprocessing none,
        by simp [executeWorkflow, happ, hpre], ?_⟩
      rw [updateStatus_find_isSome, waitForVerification_find_isSome]
      exact hid
    · rw [hpre] at hfail
      rcases henr : env.enrichOutcome with e | dv
      · rw [henr] at hfail
        cases hfail
        refine ⟨by simp [executeWorkflow, happ, hpre, henr],
          updateStatus (updateStatus (waitForVerification db now app) now app
            LoanApplicationStatus.preprocessing none) now app
            LoanApplicationStatus.dataEnrichment none,
          by simp [executeWorkflow, happ, hpre, henr], ?_⟩
        rw [updateStatus_find_isSome, updateStatus_find_isSome,
          waitForVerification_find_isSome]
        exact hid
      · rw [henr] at hfail
        rcases hdv : dv with _ | _
        · rw [hdv] at hfail
          simp at hfail
        · rw [hdv] at hfail
          rcases hsc : env.scoreOutcome with e | p
          · rw [hsc] at hfail
            cases hfail
            refine ⟨by simp [executeWorkflow, happ, hpre, henr, hdv, hsc],
              updateStatus (updateStatus (updateStatus
                (waitForVerification db now app) now app
                LoanApplicationStatus.preprocessing none) now app
                LoanApplicationStatus.dataEnrichment none) now app
                LoanApplicationStatus.scoring none,
              by simp [executeWorkflow, happ, hpre, henr, hdv, hsc], ?_⟩
            rw [updateStatus_find_isSome, updateStatus_find_isSome,
              updateStatus_find_isSome, waitForVerification_find_isSome]
            exact hid
          · rw [hsc] at hfail
            simp at hfail
  obtain ⟨hr, dbx, hdb, hsome⟩ := main
  have hproj := updateStatus_error_projection dbx now app msg hsome
  refine ⟨hr, ?_, ?_, ?_⟩
  · rw [hdb]; exact hproj.1
  · rw [hdb]; exact hproj.2
  · simp [processApplicationWorkflow, hr]

/-- C7 amended witness: the theorem applied to `demoDB` with the failing
preprocessing stage. -/
theorem stage_failure_recorded_then_reraised_witness :
    (findApplication demoDB "r1" = some demoApp ∧
     (demoDB.applications.find? (fun x => x.id == demoApp.id)).isSome = true ∧
     firstStageError envPreprocessFails = some "Stage failure") ∧
    ((executeWorkflow demoDB 0 "r1" envPreprocessFails).raised =
       some "Stage failure" ∧
     ((executeWorkflow demoDB 0 "r1" envPreprocessFails).db.applications.find?
         (fun x => x.id == demoApp.id)).map (fun x => x.status) =
       some LoanApplicationStatus.error ∧
     ((executeWorkflow demoDB 0 "r1" envPreprocessFails).db.applications.find?
         (fun x => x.id == demoApp.id)).map (fun x => x.decisionReason) =
       some (some "Stage failure") ∧
     (processApplicationWorkflow demoDB 0 "r1" envPreprocessFails).1 =
       TaskOutcome.retryScheduled "Stage failure") :=
  ⟨⟨by decide, by decide, by decide⟩,
   stage_failure_recorded_then_reraised demoDB 0 "r1" "Stage failure"
     envPreprocessFails demoApp (by decide) (by decide) (by decide)⟩

end LoanApp
